import Mathlib

/-!
Shallow embedding of the airfare-tracking script `src/main.py`.

The script's Python dictionaries are modelled as structures with `Option`
fields (a `none` field models an absent dictionary key).  Python exceptions
are modelled by `PyErr`; `Except PyErr` models code that can raise.  External
effects are made explicit: the spreadsheet is a list of rows (each row a list
of cell strings), the mail channel is an oracle `Email → Option String`
(`none` = the SMTP submission succeeds, `some m` = it raises with message
`m`), and the single HTTP request's outcome is the `HttpOutcome` parameter.
-/

namespace Airfare

/-- Python exceptions relevant to `main.py`: `KeyError` (carrying the missing
key), `IndexError` (from `route[0]` on an empty list) and `ValueError` (from
`datetime.strptime`).  The script's `except KeyError` clauses catch only the
first constructor. -/
inductive PyErr where
  | keyError (k : String)
  | indexError
  | valueError
deriving DecidableEq, Repr

/-- One element of a flight's `route` array (`main.py` only reads index 0).
`none` models an absent key. -/
structure RouteSeg where
  cityFrom : Option String
  cityTo : Option String
  utc_departure : Option String
  local_departure : Option String
deriving DecidableEq, Repr

/-- A flight-offer record from the API response (`main.py` reads the keys
`price`, `duration.departure`, `route` and `deep_link`). -/
structure Flight where
  price : Option Int
  duration : Option Nat
  route : Option (List RouteSeg)
  deep_link : Option String
deriving DecidableEq, Repr

/-- A composed MIME message (subject, HTML body, fixed sender/receiver). -/
structure Email where
  subject : String
  body_html : String
  sender : String
  receiver : String
deriving DecidableEq, Repr

/-- One call to the SMTP channel: the composed message and whether the
submission succeeded. -/
structure SendAttempt where
  email : Email
  delivered : Bool
deriving DecidableEq, Repr

/-- Dictionary lookup `d[k]`: raises `KeyError k` when the key is absent. -/
def getKey {α : Type} (o : Option α) (k : String) : Except PyErr α :=
  match o with
  | none => Except.error (PyErr.keyError k)
  | some v => Except.ok v

/-- `flight["route"][0]`: `KeyError "route"` when the key is absent,
`IndexError` when the route list is empty. -/
def route0 (flight : Flight) : Except PyErr RouteSeg := do
  let rs ← getKey flight.route "route"
  match rs with
  | [] => Except.error PyErr.indexError
  | r :: _ => Except.ok r

/-- `flight["route"][0]["cityTo"]`, as evaluated by the destination-filter
list comprehension in `save_to_google_sheets`. -/
def getCityTo (flight : Flight) : Except PyErr String := do
  let r ← route0 flight
  getKey r.cityTo "cityTo"

/-- `PRICE_THRESHOLD = 400` (module-level constant in `main.py`). -/
def PRICE_THRESHOLD : Int := 400

/-- `preferred_destinations` list in `save_to_google_sheets`. -/
def preferred_destinations : List String := ["Palermo", "Catania", "Rome", "Milan"]

/-- The canonical six-cell header tuple written to row 1 of the sheet. -/
def headers : List String :=
  ["Price (USD)", "Duration", "Origin", "Destination", "Departure Time", "Booking Link"]

/-! ## datetime.strptime / strftime model

`main.py` parses `route[0]["utc_departure"]` with format
`%Y-%m-%dT%H:%M:%S.%fZ` and reformats with `%Y-%m-%d %H:%M`.  The parser is
modelled character by character; a parse or range failure is `ValueError`. -/

/-- A parsed `datetime` value. -/
structure PyDateTime where
  year : Nat
  month : Nat
  day : Nat
  hour : Nat
  minute : Nat
  second : Nat
  micro : Nat
deriving DecidableEq, Repr

/-- Greedily take at most `w` leading decimal digits. -/
def takeDigits : Nat → List Char → List Char × List Char
  | 0, cs => ([], cs)
  | _ + 1, [] => ([], [])
  | w + 1, c :: cs =>
    if c.isDigit then
      let (ds, r) := takeDigits w cs
      (c :: ds, r)
    else ([], c :: cs)

/-- Decimal value of a digit list. -/
def digitsToNat (ds : List Char) : Nat :=
  List.foldl (fun acc c => acc * 10 + (c.toNat - 48)) 0 ds

/-- Parse a numeric field of at most `w` digits (at least one required). -/
def parseNum (w : Nat) (cs : List Char) : Option (Nat × List Char) :=
  let (ds, r) := takeDigits w cs
  if ds.isEmpty then none else some (digitsToNat ds, r)

/-- Consume one expected literal character. -/
def expectLit (c : Char) : List Char → Option (List Char)
  | [] => none
  | x :: xs => if x = c then some xs else none

/-- Parse the character stream of a `%Y-%m-%dT%H:%M:%S.%fZ` timestamp. -/
def parseStamp (cs0 : List Char) : Option PyDateTime := do
  let (y, cs1) ← parseNum 4 cs0
  let cs2 ← expectLit '-' cs1
  let (mo, cs3) ← parseNum 2 cs2
  let cs4 ← expectLit '-' cs3
  let (d, cs5) ← parseNum 2 cs4
  let cs6 ← expectLit 'T' cs5
  let (h, cs7) ← parseNum 2 cs6
  let cs8 ← expectLit ':' cs7
  let (mi, cs9) ← parseNum 2 cs8
  let cs10 ← expectLit ':' cs9
  let (s, cs11) ← parseNum 2 cs10
  let cs12 ← expectLit '.' cs11
  let (f, cs13) ← parseNum 6 cs12
  let cs14 ← expectLit 'Z' cs13
  if cs14.isEmpty then some ⟨y, mo, d, h, mi, s, f⟩ else none

/-- Gregorian leap year. -/
def isLeap (y : Nat) : Bool := (y % 4 == 0 && y % 100 != 0) || y % 400 == 0

/-- Days in a month, as validated by the `datetime` constructor. -/
def daysInMonth (y m : Nat) : Nat :=
  if m = 2 then (if isLeap y then 29 else 28)
  else if m = 4 ∨ m = 6 ∨ m = 9 ∨ m = 11 then 30
  else 31

/-- Field-range validation performed by `datetime.strptime`. -/
def validDT (t : PyDateTime) : Bool :=
  decide (1 ≤ t.year ∧ t.year ≤ 9999 ∧ 1 ≤ t.month ∧ t.month ≤ 12 ∧
    1 ≤ t.day ∧ t.day ≤ daysInMonth t.year t.month ∧
    t.hour ≤ 23 ∧ t.minute ≤ 59 ∧ t.second ≤ 59)

/-- `datetime.strptime(s, "%Y-%m-%dT%H:%M:%S.%fZ")`: `ValueError` on a parse
or range failure. -/
def strptimeUTC (s : String) : Except PyErr PyDateTime :=
  match parseStamp s.data with
  | none => Except.error PyErr.valueError
  | some t => if validDT t then Except.ok t else Except.error PyErr.valueError

/-- Zero-pad to two digits (`%m`, `%d`, `%H`, `%M`). -/
def pad2 (n : Nat) : String := if n < 10 then "0" ++ toString n else toString n

/-- Zero-pad to four digits (`%Y`). -/
def pad4 (n : Nat) : String :=
  if n < 10 then "000" ++ toString n
  else if n < 100 then "00" ++ toString n
  else if n < 1000 then "0" ++ toString n
  else toString n

/-- `dt.strftime('%Y-%m-%d %H:%M')`. -/
def strftimeDisplay (t : PyDateTime) : String :=
  pad4 t.year ++ "-" ++ pad2 t.month ++ "-" ++ pad2 t.day ++ " " ++
    pad2 t.hour ++ ":" ++ pad2 t.minute

/-! ## Recorder (`save_to_google_sheets`, lines 55-102) -/

/-- `f"{hours}h {minutes}m"` with `hours = ds // 3600` and
`minutes = (ds % 3600) // 60` (lines 75-78). -/
def formatDuration (duration_seconds : Nat) : String :=
  toString (duration_seconds / 3600) ++ "h " ++
    toString (duration_seconds % 3600 / 60) ++ "m"

/-- The `=HYPERLINK(...)` formula cell built from `deep_link` (line 86). -/
def bookingLink (deep_link : String) : String :=
  "=HYPERLINK(\"" ++ deep_link ++ "\", \"Book Now\")"

/-- The body of the per-flight `try:` block (lines 74-99): derive the six
cells of the row, raising on any absent key, empty route or unparseable
timestamp.  The `price` cell is guarded by `if "price" in flight` and never
raises: an absent price yields the literal cell `"N/A"`. -/
def buildRow (flight : Flight) : Except PyErr (List String) := do
  let duration_seconds ← getKey flight.duration "duration"
  let formatted_duration := formatDuration duration_seconds
  let r0 ← route0 flight
  let departure_time_utc ← getKey r0.utc_departure "utc_departure"
  let dt ← strptimeUTC departure_time_utc
  let departure_time_local := strftimeDisplay dt
  let deep_link ← getKey flight.deep_link "deep_link"
  let booking_link := bookingLink deep_link
  let priceCell :=
    match flight.price with
    | some p => "$" ++ toString p
    | none => "N/A"
  let cityFrom ← getKey r0.cityFrom "cityFrom"
  let cityTo ← getKey r0.cityTo "cityTo"
  pure [priceCell, formatted_duration, cityFrom, cityTo, departure_time_local, booking_link]

/-- The destination-filter list comprehension (lines 60-63).  It evaluates
`flight["route"][0]["cityTo"]` for every flight, outside any `try:` block, so
a malformed flight makes the whole comprehension raise. -/
def filterFlights : List Flight → Except PyErr (List Flight)
  | [] => Except.ok []
  | f :: fs => do
    let c ← getCityTo f
    let rest ← filterFlights fs
    pure (if preferred_destinations.contains c then f :: rest else rest)

/-- The header check (lines 66-69): insert `headers` at row 1 when the sheet
is empty or its first row differs from `headers`. -/
def ensureHeader (existing_data : List (List String)) : List (List String) :=
  match existing_data with
  | [] => [headers]
  | r :: rest => if r = headers then r :: rest else headers :: r :: rest

/-- The append loop (lines 72-101): per flight, build the row inside `try:`
and append it; `except KeyError` logs `Missing key in flight data: ...` and
continues with the next flight; any other exception propagates (the partial
sheet and log state are kept).  Result: (sheet rows, log lines, escaped
exception if any). -/
def appendLoop : List (List String) → List String → List Flight →
    List (List String) × List String × Option PyErr
  | rows, logs, [] => (rows, logs, none)
  | rows, logs, f :: fs =>
    match buildRow f with
    | Except.ok row => appendLoop (rows ++ [row]) logs fs
    | Except.error (PyErr.keyError k) =>
      appendLoop rows (logs ++ ["Missing key in flight data: " ++ k]) fs
    | Except.error e => (rows, logs, some e)

/-- `save_to_google_sheets(flights, sheet)` (lines 55-102): filter to the
preferred destinations, ensure the header row, append one row per surviving
flight.  Result: (sheet rows after the call, log lines, escaped exception if
any).  When the filter comprehension itself raises, the sheet is untouched. -/
def save_to_google_sheets (flights : List Flight) (sheetRows : List (List String)) :
    List (List String) × List String × Option PyErr :=
  match filterFlights flights with
  | Except.error e => (sheetRows, [], some e)
  | Except.ok filtered_flights =>
    let withHeader := ensureHeader sheetRows
    let result := appendLoop withHeader [] filtered_flights
    match result.2.2 with
    | some e => (result.1, result.2.1, some e)
    | none =>
      (result.1,
       result.2.1 ++
         ["Filtered " ++ toString filtered_flights.length ++ " flights saved to Google Sheets."],
       none)

/-! ## Notifier (`send_email_notification`, lines 105-131, and the deals loop
of `fetch_and_notify`, lines 159-174) -/

/-- The fixed sender = receiver address. -/
def sender_email : String := "banton65@gmail.com"

/-- The HTML wrapper built around `body` and `booking_url` (lines 110-117). -/
def html_body (body booking_url : String) : String :=
  "\n    <html>\n        <body>\n            <p>" ++ body ++
    "</p>\n            <p>Book here: <a href=\"" ++ booking_url ++
    "\" target=\"_blank\">Click Here to Book</a></p>\n        </body>\n    </html>\n    "

/-- `send_email_notification(subject, body, booking_url)`: compose the MIME
message and submit it over SMTP; any exception from the submission is caught
and logged (lines 125-131), so the function always returns.  The `smtp`
oracle gives the channel's behaviour on the composed message. -/
def send_email_notification (smtp : Email → Option String)
    (subject body booking_url : String) : SendAttempt × List String :=
  let msg : Email :=
    { subject := subject, body_html := html_body body booking_url,
      sender := sender_email, receiver := sender_email }
  match smtp msg with
  | none => ({ email := msg, delivered := true }, ["Email sent successfully!"])
  | some e => ({ email := msg, delivered := false }, ["Error sending email: " ++ e])

/-- The alert subject f-string (line 164). -/
def alertSubject (price : Int) (cityFrom cityTo : String) : String :=
  "🔥 Flight Alert: $" ++ toString price ++ " - " ++ cityFrom ++ " to " ++ cityTo

/-- The alert body f-string (lines 165-170). -/
def alertBody (price : Int) (cityFrom cityTo local_departure : String) : String :=
  "\n                Great Deal!\n                - Price: $" ++ toString price ++
    "\n                - From: " ++ cityFrom ++ " to " ++ cityTo ++
    "\n                - Departure: " ++ local_departure ++ "\n                "

/-- One iteration of the deals loop (lines 160-171): read `flight["price"]`
(uncaught `KeyError` when absent), and when it is under the threshold compose
the subject and body and call `send_email_notification`.  Returns `none` when
the flight is not under the threshold. -/
def notify_flight (smtp : Email → Option String) (flight : Flight) :
    Except PyErr (Option (SendAttempt × List String)) := do
  let price ← getKey flight.price "price"
  if price < PRICE_THRESHOLD then do
    let r0 ← route0 flight
    let cityFrom ← getKey r0.cityFrom "cityFrom"
    let cityTo ← getKey r0.cityTo "cityTo"
    let subject := alertSubject price cityFrom cityTo
    let local_dep ← getKey r0.local_departure "local_departure"
    let body := alertBody price cityFrom cityTo local_dep
    let deep ← getKey flight.deep_link "deep_link"
    pure (some (send_email_notification smtp subject body deep))
  else
    pure none

/-- The whole deals loop over the unfiltered flight list: accumulated send
attempts, log lines, and the escaped exception if any (an exception keeps the
attempts and logs made before it and stops the loop). -/
def notifyLoop (smtp : Email → Option String) :
    List Flight → List SendAttempt × List String × Option PyErr
  | [] => ([], [], none)
  | f :: fs =>
    match notify_flight smtp f with
    | Except.error e => ([], [], some e)
    | Except.ok none => notifyLoop smtp fs
    | Except.ok (some sent) =>
      let rest := notifyLoop smtp fs
      (sent.1 :: rest.1, sent.2 ++ rest.2.1, rest.2.2)

/-! ## Fetcher (`fetch_flight_data`, lines 32-52) -/

/-- The outcome of the single `requests.get` call: either a
`RequestException` (network failure, the `raise_for_status()` of a non-2xx
response, or an unparseable JSON body, all of which the `except` clause
catches), or a 2xx JSON response whose optional `data` key holds the offer
list (`none` models an absent `data` key, which `.get("data", [])` turns into
`[]`). -/
inductive HttpOutcome where
  | requestError (msg : String)
  | success (dataField : Option (List Flight))

/-- `fetch_flight_data()`: total — it never raises to its caller.  On a
request failure it logs the error and returns `[]`; on success it returns the
list under the `data` key. -/
def fetch_flight_data (o : HttpOutcome) : List Flight × List String :=
  match o with
  | HttpOutcome.requestError m =>
    ([], ["Fetching flight data...", "Error fetching flight data: " ++ m])
  | HttpOutcome.success d =>
    let flights := d.getD []
    (flights, ["Fetching flight data...", "Fetched " ++ toString flights.length ++ " flights."])

/-! ## Pipeline (`fetch_and_notify`, lines 150-176) -/

/-- `format_google_sheet(sheet)` (lines 134-147): the two cell ranges it
formats, in order. -/
def format_google_sheet : List String := ["A1:F1", "A2:F"]

/-- The observable outcome of one `fetch_and_notify()` run: final sheet rows,
formatted ranges, SMTP attempts, log lines, and the uncaught exception that
escaped the call if any (effects made before the exception are kept). -/
structure RunResult where
  rows : List (List String)
  formats : List String
  attempts : List SendAttempt
  logs : List String
  error : Option PyErr
deriving Repr

/-- `fetch_and_notify()`: fetch; when the list is empty do nothing further
except logging; otherwise save to the sheet, format it, then run the deals
loop over the unfiltered list and log when no deal was found.  An exception
escaping `save_to_google_sheets` skips the formatting and the deals loop; an
exception in the deals loop keeps the sheet mutations and earlier sends. -/
def fetch_and_notify (smtp : Email → Option String) (o : HttpOutcome)
    (sheetRows : List (List String)) : RunResult :=
  let fr := fetch_flight_data o
  let flights := fr.1
  let logs0 := "Checking for flight deals..." :: fr.2
  if flights.isEmpty then
    { rows := sheetRows, formats := [], attempts := [],
      logs := logs0 ++ ["No flights available."], error := none }
  else
    let sres := save_to_google_sheets flights sheetRows
    match sres.2.2 with
    | some e =>
      { rows := sres.1, formats := [], attempts := [],
        logs := logs0 ++ sres.2.1, error := some e }
    | none =>
      let nres := notifyLoop smtp flights
      match nres.2.2 with
      | some e =>
        { rows := sres.1, formats := format_google_sheet, attempts := nres.1,
          logs := logs0 ++ sres.2.1 ++ nres.2.1, error := some e }
      | none =>
        let deal_logs :=
          if nres.1.isEmpty then
            ["No flights under $" ++ toString PRICE_THRESHOLD ++ " found."]
          else []
        { rows := sres.1, formats := format_google_sheet, attempts := nres.1,
          logs := logs0 ++ sres.2.1 ++ nres.2.1 ++ deal_logs, error := none }

/-! ## Well-formed offers

A fully populated offer, as produced by the API on the happy path.  `mkFlight`
embeds it as a `Flight` with every key present and a one-element route. -/

/-- The field values of a fully populated offer. -/
structure OfferData where
  price : Int
  durationSec : Nat
  cityFrom : String
  cityTo : String
  utcDep : String
  localDep : String
  deepLink : String
deriving DecidableEq, Repr

/-- The `Flight` record of a fully populated offer. -/
def mkFlight (o : OfferData) : Flight :=
  { price := some o.price
  , duration := some o.durationSec
  , route := some [{ cityFrom := some o.cityFrom, cityTo := some o.cityTo,
                     utc_departure := some o.utcDep, local_departure := some o.localDep }]
  , deep_link := some o.deepLink }

/-- The same offer with the `price` key absent and every other key present. -/
def mkFlightNoPrice (o : OfferData) : Flight :=
  { price := none
  , duration := some o.durationSec
  , route := some [{ cityFrom := some o.cityFrom, cityTo := some o.cityTo,
                     utc_departure := some o.utcDep, local_departure := some o.localDep }]
  , deep_link := some o.deepLink }

/-- `True` exactly when the offer's price is strictly under the threshold. -/
def underThreshold (o : OfferData) : Bool := decide (o.price < PRICE_THRESHOLD)

/-- `True` exactly when the offer's destination city is in the Recorder's
preferred-destination list. -/
def preferredOffer (o : OfferData) : Bool := preferred_destinations.contains o.cityTo

/-- The subject/body/submission of the notification composed for an offer. -/
def notifySend (smtp : Email → Option String) (o : OfferData) : SendAttempt × List String :=
  send_email_notification smtp
    (alertSubject o.price o.cityFrom o.cityTo)
    (alertBody o.price o.cityFrom o.cityTo o.localDep)
    o.deepLink

/-- The SMTP attempt recorded for an offer's notification. -/
def attemptOf (smtp : Email → Option String) (o : OfferData) : SendAttempt :=
  (notifySend smtp o).1

/-- The log lines printed by an offer's notification. -/
def sendLogsOf (smtp : Email → Option String) (o : OfferData) : List String :=
  (notifySend smtp o).2

/-- The composed message for an offer. -/
def offerEmail (o : OfferData) : Email :=
  { subject := alertSubject o.price o.cityFrom o.cityTo
  , body_html := html_body (alertBody o.price o.cityFrom o.cityTo o.localDep) o.deepLink
  , sender := sender_email, receiver := sender_email }

/-- The six row cells written for an offer whose timestamp parsed to `dt`. -/
def rowCells (o : OfferData) (dt : PyDateTime) : List String :=
  ["$" ++ toString o.price, formatDuration o.durationSec, o.cityFrom, o.cityTo,
    strftimeDisplay dt, bookingLink o.deepLink]

/-- As `rowCells`, but with the `"N/A"` price cell of a priceless offer. -/
def rowCellsNoPrice (o : OfferData) (dt : PyDateTime) : List String :=
  ["N/A", formatDuration o.durationSec, o.cityFrom, o.cityTo,
    strftimeDisplay dt, bookingLink o.deepLink]

/-- The displayed departure string of an offer (defined when the timestamp
parses). -/
def departureDisplay (s : String) : String :=
  match strptimeUTC s with
  | Except.ok dt => strftimeDisplay dt
  | Except.error _ => ""

/-- The row written for an offer, with the departure display inlined. -/
def rowOfOffer (o : OfferData) : List String :=
  ["$" ++ toString o.price, formatDuration o.durationSec, o.cityFrom, o.cityTo,
    departureDisplay o.utcDep, bookingLink o.deepLink]

/-- `True` when the offer's `utc_departure` string parses. -/
def strptimeOk (o : OfferData) : Bool :=
  match strptimeUTC o.utcDep with
  | Except.ok _ => true
  | Except.error _ => false

/-- `True` when the destination-filter expression evaluates without raising
on this flight. -/
def cityToOk (f : Flight) : Bool :=
  match getCityTo f with
  | Except.ok _ => true
  | Except.error _ => false

/-- The Boolean the destination filter keeps a flight by (meaningful when
`cityToOk`). -/
def preferredB (f : Flight) : Bool :=
  match getCityTo f with
  | Except.ok c => preferred_destinations.contains c
  | Except.error _ => false

/-- `True` when the per-flight `try:` body either succeeds or raises a
`KeyError` (the only exception the loop catches). -/
def rowOkOrKeyErr (f : Flight) : Bool :=
  match buildRow f with
  | Except.ok _ => true
  | Except.error (PyErr.keyError _) => true
  | Except.error _ => false

/-- The log line the append loop prints for a flight, when its row raises a
`KeyError`. -/
def missingLog (f : Flight) : Option String :=
  match buildRow f with
  | Except.error (PyErr.keyError k) => some ("Missing key in flight data: " ++ k)
  | _ => none

/-! ## Characterization lemmas -/

theorem getCityTo_mkFlight (o : OfferData) : getCityTo (mkFlight o) = Except.ok o.cityTo := rfl

theorem buildRow_mkFlight (o : OfferData) :
    buildRow (mkFlight o) = (strptimeUTC o.utcDep).bind (fun dt => Except.ok (rowCells o dt)) := by
  cases h : strptimeUTC o.utcDep with
  | ok dt => simp only [buildRow, mkFlight, getKey, route0, bind, Except.bind, h, rowCells]; rfl
  | error e => simp only [buildRow, mkFlight, getKey, route0, bind, Except.bind, h]

theorem buildRow_mkFlightNoPrice (o : OfferData) :
    buildRow (mkFlightNoPrice o) =
      (strptimeUTC o.utcDep).bind (fun dt => Except.ok (rowCellsNoPrice o dt)) := by
  cases h : strptimeUTC o.utcDep with
  | ok dt =>
    simp only [buildRow, mkFlightNoPrice, getKey, route0, bind, Except.bind, h, rowCellsNoPrice]
    rfl
  | error e => simp only [buildRow, mkFlightNoPrice, getKey, route0, bind, Except.bind, h]

theorem notify_flight_mkFlight (smtp : Email → Option String) (o : OfferData) :
    notify_flight smtp (mkFlight o) =
      Except.ok (if underThreshold o then some (notifySend smtp o) else none) := by
  by_cases hp : o.price < PRICE_THRESHOLD
  · simp only [notify_flight, mkFlight, getKey, route0, bind, Except.bind, underThreshold,
      notifySend, decide_eq_true_eq, if_pos hp]
    rfl
  · simp only [notify_flight, mkFlight, getKey, route0, bind, Except.bind, underThreshold,
      decide_eq_true_eq, if_neg hp]
    rfl

theorem filterFlights_ok (flights : List Flight) (hc : ∀ f ∈ flights, cityToOk f = true) :
    filterFlights flights = Except.ok (flights.filter preferredB) := by
  induction flights with
  | nil => rfl
  | cons f fs ih =>
    have hf : cityToOk f = true := hc f (List.mem_cons_self f fs)
    have hfs : ∀ g ∈ fs, cityToOk g = true := fun g hg => hc g (List.mem_cons_of_mem f hg)
    cases hcity : getCityTo f with
    | error e => simp [cityToOk, hcity] at hf
    | ok c =>
      simp only [filterFlights, bind, Except.bind, hcity, ih hfs, List.filter_cons,
        preferredB, pure, Except.pure]

theorem appendLoop_ok (fs : List Flight) (rows : List (List String)) (logs : List String)
    (h : ∀ f ∈ fs, rowOkOrKeyErr f = true) :
    appendLoop rows logs fs =
      (rows ++ fs.filterMap (fun f => (buildRow f).toOption),
       logs ++ fs.filterMap missingLog, none) := by
  induction fs generalizing rows logs with
  | nil => simp [appendLoop]
  | cons f fs ih =>
    have hf : rowOkOrKeyErr f = true := h f (List.mem_cons_self f fs)
    have hfs : ∀ g ∈ fs, rowOkOrKeyErr g = true := fun g hg => h g (List.mem_cons_of_mem f hg)
    cases hbr : buildRow f with
    | ok row =>
      simp only [appendLoop, hbr, ih (rows ++ [row]) logs hfs, List.filterMap_cons,
        Except.toOption, missingLog, hbr, List.append_assoc, List.singleton_append]
    | error e =>
      cases e with
      | keyError k =>
        simp only [appendLoop, hbr, ih rows (logs ++ ["Missing key in flight data: " ++ k]) hfs,
          List.filterMap_cons, Except.toOption, missingLog, hbr, List.append_assoc,
          List.singleton_append]
      | indexError => simp [rowOkOrKeyErr, hbr] at hf
      | valueError => simp [rowOkOrKeyErr, hbr] at hf

theorem save_ok (flights : List Flight) (sheetRows : List (List String))
    (hc : ∀ f ∈ flights, cityToOk f = true)
    (hr : ∀ f ∈ flights.filter preferredB, rowOkOrKeyErr f = true) :
    save_to_google_sheets flights sheetRows =
      (ensureHeader sheetRows ++
         (flights.filter preferredB).filterMap (fun f => (buildRow f).toOption),
       (flights.filter preferredB).filterMap missingLog ++
         ["Filtered " ++ toString (flights.filter preferredB).length ++
           " flights saved to Google Sheets."],
       none) := by
  simp only [save_to_google_sheets, filterFlights_ok flights hc,
    appendLoop_ok (flights.filter preferredB) (ensureHeader sheetRows) [] hr,
    List.nil_append]

theorem cityToOk_mkFlight (o : OfferData) : cityToOk (mkFlight o) = true := rfl

theorem preferredB_mkFlight (o : OfferData) : preferredB (mkFlight o) = preferredOffer o := rfl

theorem buildRow_mkFlight_ok (o : OfferData) (h : strptimeOk o = true) :
    buildRow (mkFlight o) = Except.ok (rowOfOffer o) := by
  cases hs : strptimeUTC o.utcDep with
  | ok dt =>
    rw [buildRow_mkFlight, hs]
    simp [Except.bind, rowCells, rowOfOffer, departureDisplay, hs]
  | error e => simp [strptimeOk, hs] at h

theorem rowOkOrKeyErr_mkFlight (o : OfferData) (h : strptimeOk o = true) :
    rowOkOrKeyErr (mkFlight o) = true := by
  simp [rowOkOrKeyErr, buildRow_mkFlight_ok o h]

theorem missingLog_mkFlight (o : OfferData) (h : strptimeOk o = true) :
    missingLog (mkFlight o) = none := by
  simp [missingLog, buildRow_mkFlight_ok o h]

theorem isEmpty_map {α β : Type} (f : α → β) (l : List α) : (l.map f).isEmpty = l.isEmpty := by
  cases l <;> rfl

theorem notifyLoop_mkFlights (smtp : Email → Option String) (offers : List OfferData) :
    notifyLoop smtp (offers.map mkFlight) =
      ((offers.filter underThreshold).map (attemptOf smtp),
       ((offers.filter underThreshold).map (sendLogsOf smtp)).flatten,
       none) := by
  induction offers with
  | nil => rfl
  | cons o os ih =>
    by_cases hu : underThreshold o = true
    · simp only [List.map_cons, notifyLoop, notify_flight_mkFlight, hu, if_true, ih,
        List.filter_cons, List.flatten_cons, attemptOf, sendLogsOf]
    · simp only [List.map_cons, notifyLoop, notify_flight_mkFlight, hu, if_false, ih,
        List.filter_cons, Bool.false_eq_true]

theorem filterMap_rows (l : List OfferData) (h : ∀ o ∈ l, strptimeOk o = true) :
    l.filterMap (fun o => (buildRow (mkFlight o)).toOption) = l.map rowOfOffer := by
  induction l with
  | nil => rfl
  | cons o os ih =>
    have ho := h o (List.mem_cons_self o os)
    have hos : ∀ g ∈ os, strptimeOk g = true := fun g hg => h g (List.mem_cons_of_mem o hg)
    rw [List.filterMap_cons, ih hos]
    simp [buildRow_mkFlight_ok o ho, Except.toOption]

theorem filterMap_missing (l : List OfferData) (h : ∀ o ∈ l, strptimeOk o = true) :
    l.filterMap (fun o => missingLog (mkFlight o)) = [] := by
  induction l with
  | nil => rfl
  | cons o os ih =>
    have ho := h o (List.mem_cons_self o os)
    have hos : ∀ g ∈ os, strptimeOk g = true := fun g hg => h g (List.mem_cons_of_mem o hg)
    rw [List.filterMap_cons, ih hos]
    simp [missingLog_mkFlight o ho]

theorem save_mkFlights (offers : List OfferData) (sheetRows : List (List String))
    (hdt : ∀ o ∈ offers, strptimeOk o = true) :
    save_to_google_sheets (offers.map mkFlight) sheetRows =
      (ensureHeader sheetRows ++ (offers.filter preferredOffer).map rowOfOffer,
       ["Filtered " ++ toString (offers.filter preferredOffer).length ++
         " flights saved to Google Sheets."],
       none) := by
  have hfilter : (offers.map mkFlight).filter preferredB =
      (offers.filter preferredOffer).map mkFlight := by
    rw [List.filter_map]
    rfl
  have hc : ∀ f ∈ offers.map mkFlight, cityToOk f = true := by
    intro f hf
    obtain ⟨o, _, rfl⟩ := List.mem_map.mp hf
    rfl
  have hr : ∀ f ∈ (offers.map mkFlight).filter preferredB, rowOkOrKeyErr f = true := by
    rw [hfilter]
    intro f hf
    obtain ⟨o, ho, rfl⟩ := List.mem_map.mp hf
    exact rowOkOrKeyErr_mkFlight o (hdt o (List.mem_of_mem_filter ho))
  have hdt2 : ∀ o ∈ offers.filter preferredOffer, strptimeOk o = true :=
    fun o ho => hdt o (List.mem_of_mem_filter ho)
  rw [save_ok (offers.map mkFlight) sheetRows hc hr, hfilter,
    List.filterMap_map, List.filterMap_map]
  have h1 : List.filterMap ((fun f => (buildRow f).toOption) ∘ mkFlight)
      (offers.filter preferredOffer) = (offers.filter preferredOffer).map rowOfOffer :=
    filterMap_rows (offers.filter preferredOffer) hdt2
  have h2 : List.filterMap (missingLog ∘ mkFlight) (offers.filter preferredOffer) = [] :=
    filterMap_missing (offers.filter preferredOffer) hdt2
  rw [h1, h2, List.nil_append, List.length_map]

theorem fetch_and_notify_mkFlights (smtp : Email → Option String)
    (offers : List OfferData) (sheetRows : List (List String))
    (hne : offers ≠ []) (hdt : ∀ o ∈ offers, strptimeOk o = true) :
    fetch_and_notify smtp (HttpOutcome.success (some (offers.map mkFlight))) sheetRows =
      { rows := ensureHeader sheetRows ++ (offers.filter preferredOffer).map rowOfOffer
      , formats := format_google_sheet
      , attempts := (offers.filter underThreshold).map (attemptOf smtp)
      , logs := ["Checking for flight deals...", "Fetching flight data...",
                 "Fetched " ++ toString offers.length ++ " flights.",
                 "Filtered " ++ toString (offers.filter preferredOffer).length ++
                   " flights saved to Google Sheets."] ++
                ((offers.filter underThreshold).map (sendLogsOf smtp)).flatten ++
                (if (offers.filter underThreshold).isEmpty then
                   ["No flights under $" ++ toString PRICE_THRESHOLD ++ " found."]
                 else [])
      , error := none } := by
  have hisem : (offers.map mkFlight).isEmpty = false := by
    rw [isEmpty_map]
    cases offers with
    | nil => exact absurd rfl hne
    | cons o os => rfl
  simp only [fetch_and_notify, fetch_flight_data, Option.getD, hisem, Bool.false_eq_true,
    if_false, save_mkFlights offers sheetRows hdt, notifyLoop_mkFlights,
    isEmpty_map, List.length_map]
  rfl

/-! ## String containment and message-shape helpers -/

/-- `sub` occurs contiguously inside `s`. -/
def strContains (s sub : String) : Prop := ∃ u v, s = u ++ sub ++ v

theorem strContains_lift (p q s x : String) (h : strContains s x) :
    strContains (p ++ s ++ q) x := by
  obtain ⟨u, v, rfl⟩ := h
  exact ⟨p ++ u, v ++ q, by simp [String.append_assoc]⟩

theorem alertSubject_contains_price (p : Int) (cf ct : String) :
    strContains (alertSubject p cf ct) (toString p) :=
  ⟨"🔥 Flight Alert: $", " - " ++ cf ++ " to " ++ ct,
    by simp [alertSubject, String.append_assoc]⟩

theorem alertSubject_contains_cityFrom (p : Int) (cf ct : String) :
    strContains (alertSubject p cf ct) cf :=
  ⟨"🔥 Flight Alert: $" ++ toString p ++ " - ", " to " ++ ct,
    by simp [alertSubject, String.append_assoc]⟩

theorem alertSubject_contains_cityTo (p : Int) (cf ct : String) :
    strContains (alertSubject p cf ct) ct :=
  ⟨"🔥 Flight Alert: $" ++ toString p ++ " - " ++ cf ++ " to ", "",
    by simp [alertSubject, String.append_assoc]⟩

theorem alertBody_contains_price (p : Int) (cf ct ld : String) :
    strContains (alertBody p cf ct ld) (toString p) :=
  ⟨"\n                Great Deal!\n                - Price: $",
   "\n                - From: " ++ cf ++ " to " ++ ct ++
     "\n                - Departure: " ++ ld ++ "\n                ",
    by simp [alertBody, String.append_assoc]⟩

theorem alertBody_contains_cityFrom (p : Int) (cf ct ld : String) :
    strContains (alertBody p cf ct ld) cf :=
  ⟨"\n                Great Deal!\n                - Price: $" ++ toString p ++
     "\n                - From: ",
   " to " ++ ct ++ "\n                - Departure: " ++ ld ++ "\n                ",
    by simp [alertBody, String.append_assoc]⟩

theorem alertBody_contains_cityTo (p : Int) (cf ct ld : String) :
    strContains (alertBody p cf ct ld) ct :=
  ⟨"\n                Great Deal!\n                - Price: $" ++ toString p ++
     "\n                - From: " ++ cf ++ " to ",
   "\n                - Departure: " ++ ld ++ "\n                ",
    by simp [alertBody, String.append_assoc]⟩

theorem html_body_contains (b url x : String) (h : strContains b x) :
    strContains (html_body b url) x := by
  obtain ⟨u, v, rfl⟩ := h
  refine ⟨"\n    <html>\n        <body>\n            <p>" ++ u,
    v ++ ("</p>\n            <p>Book here: <a href=\"" ++ url ++
      "\" target=\"_blank\">Click Here to Book</a></p>\n        </body>\n    </html>\n    "),
    ?_⟩
  simp [html_body, String.append_assoc]

theorem attemptOf_email (smtp : Email → Option String) (o : OfferData) :
    (attemptOf smtp o).email = offerEmail o := by
  show (match smtp (offerEmail o) with
        | none =>
          (({ email := offerEmail o, delivered := true } : SendAttempt),
           ["Email sent successfully!"])
        | some m =>
          (({ email := offerEmail o, delivered := false } : SendAttempt),
           ["Error sending email: " ++ m])).1.email = offerEmail o
  cases smtp (offerEmail o) <;> rfl

theorem sendLogsOf_eq (smtp : Email → Option String) (o : OfferData) :
    sendLogsOf smtp o =
      match smtp (offerEmail o) with
      | none => ["Email sent successfully!"]
      | some m => ["Error sending email: " ++ m] := by
  show (match smtp (offerEmail o) with
        | none =>
          (({ email := offerEmail o, delivered := true } : SendAttempt),
           ["Email sent successfully!"])
        | some m =>
          (({ email := offerEmail o, delivered := false } : SendAttempt),
           ["Error sending email: " ++ m])).2 =
      match smtp (offerEmail o) with
      | none => ["Email sent successfully!"]
      | some m => ["Error sending email: " ++ m]
  cases smtp (offerEmail o) <;> rfl

/-! ## Sheet-shape helpers -/

theorem ensureHeader_eq_cons (rows : List (List String)) :
    ∃ t, ensureHeader rows = headers :: t := by
  cases rows with
  | nil => exact ⟨[], rfl⟩
  | cons r rest =>
    by_cases hr : r = headers
    · exact ⟨rest, by simp [ensureHeader, hr]⟩
    · exact ⟨r :: rest, by simp [ensureHeader, hr]⟩

theorem ensureHeader_fixed_iff (rows : List (List String)) :
    ensureHeader rows = rows ↔ rows.head? = some headers := by
  cases rows with
  | nil => simp [ensureHeader]
  | cons r rest =>
    by_cases hr : r = headers
    · simp [ensureHeader, hr]
    · simp only [ensureHeader, if_neg hr, List.head?_cons, Option.some.injEq]
      constructor
      · intro h
        have := congrArg List.length h
        simp at this
      · intro h
        exact absurd h hr

theorem appendLoop_rows (fs : List Flight) (rows : List (List String)) (logs : List String) :
    ∃ extra, (appendLoop rows logs fs).1 = rows ++ extra ∧
      ∀ r ∈ extra, ∃ f, buildRow f = Except.ok r := by
  induction fs generalizing rows logs with
  | nil => exact ⟨[], by simp [appendLoop], by simp⟩
  | cons f fs ih =>
    cases hbr : buildRow f with
    | ok row =>
      obtain ⟨extra, hrows, hok⟩ := ih (rows ++ [row]) logs
      refine ⟨row :: extra, ?_, ?_⟩
      · simp only [appendLoop, hbr, hrows, List.append_assoc, List.singleton_append]
      · intro r hr
        cases hr with
        | head => exact ⟨f, hbr⟩
        | tail _ hmem => exact hok r hmem
    | error e =>
      cases e with
      | keyError k =>
        obtain ⟨extra, hrows, hok⟩ :=
          ih rows (logs ++ ["Missing key in flight data: " ++ k])
        exact ⟨extra, by simp only [appendLoop, hbr, hrows], hok⟩
      | indexError => exact ⟨[], by simp [appendLoop, hbr], by simp⟩
      | valueError => exact ⟨[], by simp [appendLoop, hbr], by simp⟩

theorem dollar_ne_price_header (s : String) : ("$" ++ s) ≠ "Price (USD)" := by
  intro h
  have hd : ("$" ++ s).data.head? = ("Price (USD)" : String).data.head? := by rw [h]
  rw [String.data_append] at hd
  have h2 : ("$".data ++ s.data).head? = some '$' := rfl
  rw [h2] at hd
  exact absurd hd (by decide)

theorem buildRow_ok_head (f : Flight) (r : List String) (h : buildRow f = Except.ok r) :
    r.head? = some "N/A" ∨ ∃ p : Int, r.head? = some ("$" ++ toString p) := by
  cases hdur : f.duration with
  | none => simp [buildRow, getKey, hdur, bind, Except.bind] at h
  | some ds =>
  cases hrt : f.route with
  | none => simp [buildRow, getKey, hdur, hrt, route0, bind, Except.bind] at h
  | some rs =>
  cases rs with
  | nil => simp [buildRow, getKey, hdur, hrt, route0, bind, Except.bind] at h
  | cons r0 rest =>
  cases hutc : r0.utc_departure with
  | none => simp [buildRow, getKey, hdur, hrt, hutc, route0, bind, Except.bind] at h
  | some u =>
  cases hst : strptimeUTC u with
  | error e => simp [buildRow, getKey, hdur, hrt, hutc, hst, route0, bind, Except.bind] at h
  | ok dt =>
  cases hdl : f.deep_link with
  | none => simp [buildRow, getKey, hdur, hrt, hutc, hst, hdl, route0, bind, Except.bind] at h
  | some dl =>
  cases hcf : r0.cityFrom with
  | none =>
    simp [buildRow, getKey, hdur, hrt, hutc, hst, hdl, hcf, route0, bind, Except.bind] at h
  | some cf =>
  cases hct : r0.cityTo with
  | none =>
    simp [buildRow, getKey, hdur, hrt, hutc, hst, hdl, hcf, hct, route0, bind,
      Except.bind] at h
  | some ct =>
    simp only [buildRow, getKey, hdur, hrt, hutc, hst, hdl, hcf, hct, route0, bind,
      Except.bind, pure, Except.pure, Except.ok.injEq] at h
    cases hp : f.price with
    | none =>
      left
      rw [← h]
      simp [hp]
    | some p =>
      right
      exact ⟨p, by rw [← h]; simp [hp]⟩

theorem buildRow_ok_ne_headers (f : Flight) (r : List String)
    (h : buildRow f = Except.ok r) : r ≠ headers := by
  intro hr
  subst hr
  cases buildRow_ok_head f headers h with
  | inl hna => exact absurd hna (by decide)
  | inr hp =>
    obtain ⟨p, hp⟩ := hp
    have hhead : headers.head? = some "Price (USD)" := rfl
    rw [hhead] at hp
    exact dollar_ne_price_header (toString p) (Option.some.inj hp).symm

/-! ## Concrete data for witnesses and counterexamples -/

/-- A fully populated, preferred-destination, under-threshold offer. -/
def offerRome : OfferData :=
  { price := 350, durationSec := 33300, cityFrom := "New York", cityTo := "Rome",
    utcDep := "2025-06-01T08:30:00.000000Z", localDep := "2025-06-01T10:30:00",
    deepLink := "https://book.example/rome" }

/-- An under-threshold offer whose destination is not preferred. -/
def offerParis : OfferData :=
  { price := 300, durationSec := 7200, cityFrom := "Charlotte", cityTo := "Paris",
    utcDep := "2025-06-02T09:00:00.000000Z", localDep := "2025-06-02T11:00:00",
    deepLink := "https://book.example/paris" }

/-- A preferred-destination offer priced at or above the threshold. -/
def offerMilanPricey : OfferData :=
  { price := 450, durationSec := 30000, cityFrom := "Raleigh", cityTo := "Milan",
    utcDep := "2025-06-03T07:15:00.000000Z", localDep := "2025-06-03T09:15:00",
    deepLink := "https://book.example/milan" }

/-- The parse of `offerRome`'s departure timestamp. -/
def dtRome : PyDateTime :=
  { year := 2025, month := 6, day := 1, hour := 8, minute := 30, second := 0, micro := 0 }

/-- A flight record with no `route` key. -/
def flightNoRoute : Flight :=
  { price := some 500, duration := some 3600, route := none,
    deep_link := some "https://book.example/x" }

/-- `offerRome`'s flight record with the `duration` key removed. -/
def flightNoDuration : Flight :=
  { price := some 350, duration := none,
    route := some [{ cityFrom := some "New York", cityTo := some "Rome",
                     utc_departure := some "2025-06-01T08:30:00.000000Z",
                     local_departure := some "2025-06-01T10:30:00" }],
    deep_link := some "https://book.example/rome" }

/-- An SMTP channel that accepts every submission. -/
def smtpUp : Email → Option String := fun _ => none

/-- An SMTP channel that rejects every submission. -/
def smtpDown : Email → Option String := fun _ => some "authentication failed"

/-! ## Claim theorems -/

/-- C5: for every outcome of the Fetcher's single HTTP request,
`fetch_flight_data` never raises to its caller (it is a total function into a
plain pair): on a request failure (network error, non-2xx status, or
unparseable body — every case the `except requests.exceptions.RequestException`
clause catches) it logs the error and returns the empty list, and on success
it returns exactly the list under the response's `data` key (`[]` when the
key is absent or holds no results). -/
theorem fetcher_total_returns_data_or_empty (m : String) (d : Option (List Flight)) :
    fetch_flight_data (HttpOutcome.requestError m) =
      ([], ["Fetching flight data...", "Error fetching flight data: " ++ m]) ∧
    (fetch_flight_data (HttpOutcome.success d)).1 = d.getD [] := by
  refine ⟨rfl, ?_⟩
  cases d <;> rfl

/-- C6: whenever the Fetcher returns an empty offer list (for any HTTP
outcome), `fetch_and_notify` leaves the sheet untouched, applies no cell
formatting, makes no SMTP attempt, raises nothing, and logs that no flights
are available. -/
theorem empty_fetch_no_writes_no_sends (smtp : Email → Option String)
    (sheetRows : List (List String)) (o : HttpOutcome)
    (h : (fetch_flight_data o).1 = []) :
    (fetch_and_notify smtp o sheetRows).rows = sheetRows ∧
    (fetch_and_notify smtp o sheetRows).formats = [] ∧
    (fetch_and_notify smtp o sheetRows).attempts = [] ∧
    (fetch_and_notify smtp o sheetRows).error = none ∧
    "No flights available." ∈ (fetch_and_notify smtp o sheetRows).logs := by
  have hisem : (fetch_flight_data o).1.isEmpty = true := by rw [h]; rfl
  simp [fetch_and_notify, hisem, List.mem_append]

/-- Witness for C6 at a concrete connection error. -/
theorem empty_fetch_no_writes_no_sends_witness :
    (fetch_and_notify smtpUp (HttpOutcome.requestError "connection error") [["x"]]).rows =
      [["x"]] ∧
    (fetch_and_notify smtpUp (HttpOutcome.requestError "connection error") [["x"]]).formats =
      [] ∧
    (fetch_and_notify smtpUp (HttpOutcome.requestError "connection error") [["x"]]).attempts =
      [] ∧
    (fetch_and_notify smtpUp (HttpOutcome.requestError "connection error") [["x"]]).error =
      none ∧
    "No flights available." ∈
      (fetch_and_notify smtpUp (HttpOutcome.requestError "connection error") [["x"]]).logs :=
  empty_fetch_no_writes_no_sends smtpUp [["x"]] (HttpOutcome.requestError "connection error") rfl

/-- C7: for a well-formed offer whose timestamp parses, the appended row's
cells are exactly: the `$`-prefixed price; the duration rendered
`{sec / 3600}h {sec % 3600 / 60}m`; origin; destination; the departure
reformatted to `YYYY-MM-DD HH:MM` (zero-padded fields); and the booking link
as a `=HYPERLINK(...)` formula rather than a bare URL. -/
theorem row_field_derivation (o : OfferData) (dt : PyDateTime)
    (h : strptimeUTC o.utcDep = Except.ok dt) :
    buildRow (mkFlight o) = Except.ok (rowCells o dt) ∧
    rowCells o dt =
      ["$" ++ toString o.price,
       toString (o.durationSec / 3600) ++ "h " ++ toString (o.durationSec % 3600 / 60) ++ "m",
       o.cityFrom, o.cityTo,
       pad4 dt.year ++ "-" ++ pad2 dt.month ++ "-" ++ pad2 dt.day ++ " " ++
         pad2 dt.hour ++ ":" ++ pad2 dt.minute,
       "=HYPERLINK(\"" ++ o.deepLink ++ "\", \"Book Now\")"] := by
  refine ⟨?_, rfl⟩
  rw [buildRow_mkFlight, h]
  rfl

/-- Witness for C7 at a concrete offer and parse. -/
theorem row_field_derivation_witness :
    strptimeUTC offerRome.utcDep = Except.ok dtRome ∧
    buildRow (mkFlight offerRome) = Except.ok (rowCells offerRome dtRome) ∧
    rowCells offerRome dtRome =
      ["$350", "9h 15m", "New York", "Rome", "2025-06-01 08:30",
       "=HYPERLINK(\"https://book.example/rome\", \"Book Now\")"] := by
  refine ⟨rfl, (row_field_derivation offerRome dtRome rfl).1, ?_⟩
  rfl

/-- C1 counterexample: a batch whose first offer is missing its `route` key
aborts the whole Recorder call with an uncaught `KeyError "route"` raised by
the destination-filter comprehension — nothing is logged per-row, no header
and no row is written, and the subsequent well-formed offer is not
processed.  This refutes the claim that an offer missing `route` is logged
and skipped with processing continuing. -/
theorem recorder_missing_route_aborts :
    save_to_google_sheets [flightNoRoute, mkFlight offerRome] [] =
      ([], [], some (PyErr.keyError "route")) := rfl

/-- C1 amended: the malformed-offer tolerance holds only once the
destination filter has succeeded on every offer of the batch (every offer
can evaluate `route[0]["cityTo"]`): then the Recorder never raises, an offer
whose row construction raises a `KeyError` (e.g. a missing `duration`,
`utc_departure`, `deep_link`, `cityFrom` or `cityTo`) is logged and skipped
while all other offers are still appended — and an offer missing only
`price` is not skipped at all (its row carries `"N/A"`, see C10). -/
theorem recorder_per_row_skip (flights : List Flight) (sheetRows : List (List String))
    (hc : ∀ f ∈ flights, cityToOk f = true)
    (hr : ∀ f ∈ flights, rowOkOrKeyErr f = true) :
    (save_to_google_sheets flights sheetRows).2.2 = none ∧
    (save_to_google_sheets flights sheetRows).1 =
      ensureHeader sheetRows ++
        (flights.filter preferredB).filterMap (fun f => (buildRow f).toOption) ∧
    ∀ f ∈ flights.filter preferredB, ∀ k, buildRow f = Except.error (PyErr.keyError k) →
      ("Missing key in flight data: " ++ k) ∈ (save_to_google_sheets flights sheetRows).2.1 := by
  have hr2 : ∀ f ∈ flights.filter preferredB, rowOkOrKeyErr f = true :=
    fun f hf => hr f (List.mem_of_mem_filter hf)
  rw [save_ok flights sheetRows hc hr2]
  refine ⟨rfl, rfl, ?_⟩
  intro f hf k hk
  have hmem : ("Missing key in flight data: " ++ k) ∈
      (flights.filter preferredB).filterMap missingLog :=
    List.mem_filterMap.mpr ⟨f, hf, by simp [missingLog, hk]⟩
  exact List.mem_append.mpr (Or.inl hmem)

/-- Witness for the amended C1: a batch of a duration-less offer and a
well-formed offer is saved without raising, the bad offer is logged and
skipped, and the good offer's row is still appended. -/
theorem recorder_per_row_skip_witness :
    (save_to_google_sheets [flightNoDuration, mkFlight offerRome] []).2.2 = none ∧
    (save_to_google_sheets [flightNoDuration, mkFlight offerRome] []).1 =
      [headers, rowCells offerRome dtRome] ∧
    "Missing key in flight data: duration" ∈
      (save_to_google_sheets [flightNoDuration, mkFlight offerRome] []).2.1 := by
  have h := recorder_per_row_skip [flightNoDuration, mkFlight offerRome] []
    (by decide) (by decide)
  refine ⟨h.1, ?_, ?_⟩
  · rw [h.2.1]
    rfl
  · exact h.2.2 flightNoDuration (by decide) "duration" rfl

/-- C4: whenever a Recorder call completes without raising, the resulting
sheet's first row is the canonical header tuple; if the sheet already began
with the canonical header, the call only appends rows after the existing
ones and none of the appended rows is a second header row; and the header
check inserts a header exactly when the sheet is empty or its first row
differs from the canonical tuple. -/
theorem header_check_idempotent (flights : List Flight) (sheetRows : List (List String))
    (h : (save_to_google_sheets flights sheetRows).2.2 = none) :
    ((save_to_google_sheets flights sheetRows).1).head? = some headers ∧
    (sheetRows.head? = some headers →
      ∃ extra, (save_to_google_sheets flights sheetRows).1 = sheetRows ++ extra ∧
        headers ∉ extra) ∧
    (∀ rows : List (List String), ensureHeader rows = rows ↔ rows.head? = some headers) := by
  cases hfil : filterFlights flights with
  | error e =>
    have hbad : (save_to_google_sheets flights sheetRows).2.2 = some e := by
      simp [save_to_google_sheets, hfil]
    rw [h] at hbad
    exact absurd hbad (by simp)
  | ok filtered =>
    obtain ⟨extra, hrows, hok⟩ := appendLoop_rows filtered (ensureHeader sheetRows) []
    have hsave1 : (save_to_google_sheets flights sheetRows).1 =
        (appendLoop (ensureHeader sheetRows) [] filtered).1 := by
      cases h2 : (appendLoop (ensureHeader sheetRows) [] filtered).2.2 with
      | none => simp [save_to_google_sheets, hfil, h2]
      | some e => simp [save_to_google_sheets, hfil, h2]
    have hnotin : headers ∉ extra := by
      intro hmem
      obtain ⟨f, hf⟩ := hok headers hmem
      exact buildRow_ok_ne_headers f headers hf rfl
    refine ⟨?_, ?_, fun rows => ensureHeader_fixed_iff rows⟩
    · obtain ⟨t, ht⟩ := ensureHeader_eq_cons sheetRows
      rw [hsave1, hrows, ht]
      rfl
    · intro hhead
      have hfix : ensureHeader sheetRows = sheetRows := (ensureHeader_fixed_iff sheetRows).mpr hhead
      refine ⟨extra, ?_, hnotin⟩
      rw [hsave1, hrows, hfix]

/-- Witness for C4: saving onto a sheet that already starts with the header
inserts no second header. -/
theorem header_check_idempotent_witness :
    (save_to_google_sheets [] [headers]).2.2 = none ∧
    ((save_to_google_sheets [] [headers]).1).head? = some headers ∧
    ∃ extra, (save_to_google_sheets [] [headers]).1 = [headers] ++ extra ∧
      headers ∉ extra := by
  have h := header_check_idempotent [] [headers] rfl
  exact ⟨rfl, h.1, h.2.1 rfl⟩

theorem attempt_message_contains (smtp : Email → Option String) (o : OfferData) :
    (attemptOf smtp o).email.subject = alertSubject o.price o.cityFrom o.cityTo ∧
    strContains (attemptOf smtp o).email.subject (toString o.price) ∧
    strContains (attemptOf smtp o).email.subject o.cityFrom ∧
    strContains (attemptOf smtp o).email.subject o.cityTo ∧
    strContains (attemptOf smtp o).email.body_html (toString o.price) ∧
    strContains (attemptOf smtp o).email.body_html o.cityFrom ∧
    strContains (attemptOf smtp o).email.body_html o.cityTo := by
  rw [attemptOf_email smtp o]
  refine ⟨rfl, ?_, ?_, ?_, ?_, ?_, ?_⟩
  · exact alertSubject_contains_price o.price o.cityFrom o.cityTo
  · exact alertSubject_contains_cityFrom o.price o.cityFrom o.cityTo
  · exact alertSubject_contains_cityTo o.price o.cityFrom o.cityTo
  · exact html_body_contains _ o.deepLink _
      (alertBody_contains_price o.price o.cityFrom o.cityTo o.localDep)
  · exact html_body_contains _ o.deepLink _
      (alertBody_contains_cityFrom o.price o.cityFrom o.cityTo o.localDep)
  · exact html_body_contains _ o.deepLink _
      (alertBody_contains_cityTo o.price o.cityFrom o.cityTo o.localDep)

/-- C2: for a fetched batch of well-formed offers (each timestamp parses),
the pipeline raises nothing, and its SMTP attempts are exactly one per offer
priced strictly under the threshold, in batch order; the composed message of
each such offer has the alert subject, and both its subject and its HTML
body contain the offer's price, origin city and destination city. -/
theorem under_threshold_offers_notified (smtp : Email → Option String)
    (sheetRows : List (List String)) (offers : List OfferData)
    (hdt : ∀ o ∈ offers, strptimeOk o = true) :
    (fetch_and_notify smtp (HttpOutcome.success (some (offers.map mkFlight))) sheetRows).error
      = none ∧
    (fetch_and_notify smtp (HttpOutcome.success (some (offers.map mkFlight))) sheetRows).attempts
      = (offers.filter underThreshold).map (attemptOf smtp) ∧
    ∀ o ∈ offers, underThreshold o = true →
      (attemptOf smtp o).email.subject = alertSubject o.price o.cityFrom o.cityTo ∧
      strContains (attemptOf smtp o).email.subject (toString o.price) ∧
      strContains (attemptOf smtp o).email.subject o.cityFrom ∧
      strContains (attemptOf smtp o).email.subject o.cityTo ∧
      strContains (attemptOf smtp o).email.body_html (toString o.price) ∧
      strContains (attemptOf smtp o).email.body_html o.cityFrom ∧
      strContains (attemptOf smtp o).email.body_html o.cityTo := by
  cases offers with
  | nil =>
    exact ⟨rfl, rfl, fun o ho => absurd ho (List.not_mem_nil o)⟩
  | cons o os =>
    rw [fetch_and_notify_mkFlights smtp (o :: os) sheetRows (by simp) hdt]
    exact ⟨rfl, rfl, fun o2 _ _ => attempt_message_contains smtp o2⟩

/-- Witness for C2: of two offers, only the 350-dollar one is under the 400
threshold; exactly one attempt is made, whose subject and body carry
"350", "New York" and "Rome". -/
theorem under_threshold_offers_notified_witness :
    (∀ o ∈ [offerRome, offerMilanPricey], strptimeOk o = true) ∧
    (fetch_and_notify smtpUp
        (HttpOutcome.success (some ([offerRome, offerMilanPricey].map mkFlight))) []).attempts
      = [attemptOf smtpUp offerRome] ∧
    strContains (attemptOf smtpUp offerRome).email.subject (toString offerRome.price) ∧
    strContains (attemptOf smtpUp offerRome).email.subject offerRome.cityFrom ∧
    strContains (attemptOf smtpUp offerRome).email.subject offerRome.cityTo ∧
    strContains (attemptOf smtpUp offerRome).email.body_html offerRome.cityTo := by
  have h := under_threshold_offers_notified smtpUp [] [offerRome, offerMilanPricey] (by decide)
  have hc := h.2.2 offerRome (List.mem_cons_self offerRome [offerMilanPricey]) (by decide)
  refine ⟨by decide, ?_, hc.2.1, hc.2.2.1, hc.2.2.2.1, hc.2.2.2.2.2.2⟩
  rw [h.2.1]
  rfl

/-- C3: for a fetched batch of well-formed offers, every SMTP attempt the
pipeline makes belongs to an offer priced strictly under the threshold (so
no offer at or above it is ever notified), and when a nonempty batch has no
under-threshold offer, no attempt is made at all and the
"No flights under $400 found." line is logged. -/
theorem at_or_above_threshold_not_notified (smtp : Email → Option String)
    (sheetRows : List (List String)) (offers : List OfferData)
    (hdt : ∀ o ∈ offers, strptimeOk o = true) :
    (∀ a ∈ (fetch_and_notify smtp (HttpOutcome.success (some (offers.map mkFlight)))
        sheetRows).attempts,
       ∃ o, o ∈ offers ∧ underThreshold o = true ∧ a = attemptOf smtp o) ∧
    (offers ≠ [] → offers.filter underThreshold = [] →
      (fetch_and_notify smtp (HttpOutcome.success (some (offers.map mkFlight)))
        sheetRows).attempts = [] ∧
      ("No flights under $" ++ toString PRICE_THRESHOLD ++ " found.") ∈
        (fetch_and_notify smtp (HttpOutcome.success (some (offers.map mkFlight)))
          sheetRows).logs) := by
  cases offers with
  | nil =>
    constructor
    · intro a ha
      exact absurd ha (List.not_mem_nil a)
    · intro hne _
      exact absurd rfl hne
  | cons o os =>
    rw [fetch_and_notify_mkFlights smtp (o :: os) sheetRows (by simp) hdt]
    constructor
    · intro a ha
      obtain ⟨o2, ho2, rfl⟩ := List.mem_map.mp ha
      obtain ⟨hmem, hunder⟩ := List.mem_filter.mp ho2
      exact ⟨o2, hmem, hunder, rfl⟩
    · intro _ hfil
      rw [hfil]
      exact ⟨rfl, by simp⟩

/-- Witness for C3 at a single 450-dollar offer: no attempt, and the
no-deals line is logged. -/
theorem at_or_above_threshold_not_notified_witness :
    (fetch_and_notify smtpUp
        (HttpOutcome.success (some ([offerMilanPricey].map mkFlight))) []).attempts = [] ∧
    ("No flights under $" ++ toString PRICE_THRESHOLD ++ " found.") ∈
      (fetch_and_notify smtpUp
        (HttpOutcome.success (some ([offerMilanPricey].map mkFlight))) []).logs := by
  have h := at_or_above_threshold_not_notified smtpUp [] [offerMilanPricey] (by decide)
  exact h.2 (by simp) rfl

/-- C8: the deals loop never raises on a batch of well-formed offers,
whatever the SMTP channel does: it makes exactly as many attempts as there
are under-threshold offers, each under-threshold offer's attempt is present,
and a failing submission is caught and logged with its error message —
so one failed send never aborts the rest of the batch. -/
theorem send_failure_does_not_abort_batch (smtp : Email → Option String)
    (offers : List OfferData) :
    (notifyLoop smtp (offers.map mkFlight)).2.2 = none ∧
    (notifyLoop smtp (offers.map mkFlight)).1.length =
      (offers.filter underThreshold).length ∧
    ∀ o ∈ offers.filter underThreshold,
      attemptOf smtp o ∈ (notifyLoop smtp (offers.map mkFlight)).1 ∧
      ∀ m, smtp (offerEmail o) = some m →
        ("Error sending email: " ++ m) ∈ (notifyLoop smtp (offers.map mkFlight)).2.1 := by
  rw [notifyLoop_mkFlights]
  refine ⟨rfl, by simp, ?_⟩
  intro o ho
  constructor
  · exact List.mem_map.mpr ⟨o, ho, rfl⟩
  · intro m hm
    have hlg : sendLogsOf smtp o = ["Error sending email: " ++ m] := by
      rw [sendLogsOf_eq, hm]
    refine List.mem_flatten.mpr ⟨sendLogsOf smtp o, List.mem_map.mpr ⟨o, ho, rfl⟩, ?_⟩
    rw [hlg]
    simp

/-- Witness for C8: with an always-failing channel, both under-threshold
offers are still attempted and the failure is logged. -/
theorem send_failure_does_not_abort_batch_witness :
    (notifyLoop smtpDown ([offerRome, offerParis].map mkFlight)).2.2 = none ∧
    (notifyLoop smtpDown ([offerRome, offerParis].map mkFlight)).1.length = 2 ∧
    ("Error sending email: authentication failed") ∈
      (notifyLoop smtpDown ([offerRome, offerParis].map mkFlight)).2.1 := by
  have h := send_failure_does_not_abort_batch smtpDown [offerRome, offerParis]
  refine ⟨h.1, ?_, ?_⟩
  · rw [h.2.1]
    rfl
  · exact (h.2.2 offerRome (by decide)).2 "authentication failed" rfl

/-- C9: the deals loop scans the full unfiltered fetched list, not the
Recorder's destination-filtered list: an under-threshold offer whose
destination city is not preferred contributes no sheet row (the sheet only
gets its header check), yet its notification is still attempted, and the
run raises nothing. -/
theorem notifier_scans_unfiltered_list (smtp : Email → Option String)
    (sheetRows : List (List String)) (o : OfferData)
    (h1 : preferredOffer o = false) (h2 : underThreshold o = true) :
    (fetch_and_notify smtp (HttpOutcome.success (some [mkFlight o])) sheetRows).rows =
      ensureHeader sheetRows ∧
    (fetch_and_notify smtp (HttpOutcome.success (some [mkFlight o])) sheetRows).attempts =
      [attemptOf smtp o] ∧
    (fetch_and_notify smtp (HttpOutcome.success (some [mkFlight o])) sheetRows).error =
      none := by
  have hc : ∀ f ∈ [mkFlight o], cityToOk f = true := by
    intro f hf
    rw [List.mem_singleton] at hf
    subst hf
    rfl
  have hfil : [mkFlight o].filter preferredB = [] := by
    have hpb : preferredB (mkFlight o) = false := h1
    simp [List.filter_cons, hpb]
  have hr : ∀ f ∈ [mkFlight o].filter preferredB, rowOkOrKeyErr f = true := by
    rw [hfil]
    intro f hf
    exact absurd hf (List.not_mem_nil f)
  have hsave := save_ok [mkFlight o] sheetRows hc hr
  rw [hfil] at hsave
  have hsave2 : save_to_google_sheets [mkFlight o] sheetRows =
      (ensureHeader sheetRows, ["Filtered 0 flights saved to Google Sheets."], none) := by
    rw [hsave]
    simp
    rfl
  have hnot : notifyLoop smtp [mkFlight o] =
      ([attemptOf smtp o], sendLogsOf smtp o, none) := by
    have h3 := notifyLoop_mkFlights smtp [o]
    have h4 : List.filter underThreshold [o] = [o] := by simp [List.filter_cons, h2]
    rw [h4] at h3
    simpa using h3
  simp only [fetch_and_notify, fetch_flight_data, Option.getD, hsave2, hnot]
  exact ⟨rfl, rfl, rfl⟩

/-- Witness for C9: the 300-dollar Paris offer is not recorded but is
notified. -/
theorem notifier_scans_unfiltered_list_witness :
    preferredOffer offerParis = false ∧ underThreshold offerParis = true ∧
    (fetch_and_notify smtpUp (HttpOutcome.success (some [mkFlight offerParis])) []).rows =
      [headers] ∧
    (fetch_and_notify smtpUp (HttpOutcome.success (some [mkFlight offerParis])) []).attempts =
      [attemptOf smtpUp offerParis] ∧
    (fetch_and_notify smtpUp (HttpOutcome.success (some [mkFlight offerParis])) []).error =
      none := by
  have h := notifier_scans_unfiltered_list smtpUp [] offerParis (by decide) (by decide)
  exact ⟨by decide, by decide, h.1, h.2.1, h.2.2⟩

/-- C10: an offer missing only its `price` key still passes the Recorder's
filter and is appended with the literal `"N/A"` price cell (it is neither
logged nor skipped); but when the same offer reaches the deals loop's
threshold comparison, `flight["price"]` raises a `KeyError` that nothing
catches, so the run escapes with it after the sheet was already mutated and
before any notification attempt. -/
theorem missing_price_na_row_but_notifier_keyerror (smtp : Email → Option String)
    (sheetRows : List (List String)) (o : OfferData) (dt : PyDateTime)
    (hpref : preferredOffer o = true) (hdt : strptimeUTC o.utcDep = Except.ok dt) :
    save_to_google_sheets [mkFlightNoPrice o] sheetRows =
      (ensureHeader sheetRows ++ [rowCellsNoPrice o dt],
       ["Filtered 1 flights saved to Google Sheets."], none) ∧
    (fetch_and_notify smtp (HttpOutcome.success (some [mkFlightNoPrice o])) sheetRows).error =
      some (PyErr.keyError "price") ∧
    (fetch_and_notify smtp (HttpOutcome.success (some [mkFlightNoPrice o])) sheetRows).rows =
      ensureHeader sheetRows ++ [rowCellsNoPrice o dt] ∧
    (fetch_and_notify smtp (HttpOutcome.success (some [mkFlightNoPrice o])) sheetRows).attempts
      = [] := by
  have hc : ∀ f ∈ [mkFlightNoPrice o], cityToOk f = true := by
    intro f hf
    rw [List.mem_singleton] at hf
    subst hf
    rfl
  have hpb : preferredB (mkFlightNoPrice o) = true := hpref
  have hfil : [mkFlightNoPrice o].filter preferredB = [mkFlightNoPrice o] := by
    simp [List.filter_cons, hpb]
  have hbrow : buildRow (mkFlightNoPrice o) = Except.ok (rowCellsNoPrice o dt) := by
    rw [buildRow_mkFlightNoPrice, hdt]
    rfl
  have hr : ∀ f ∈ [mkFlightNoPrice o].filter preferredB, rowOkOrKeyErr f = true := by
    rw [hfil]
    intro f hf
    rw [List.mem_singleton] at hf
    subst hf
    simp [rowOkOrKeyErr, hbrow]
  have hsave := save_ok [mkFlightNoPrice o] sheetRows hc hr
  rw [hfil] at hsave
  have hsave2 : save_to_google_sheets [mkFlightNoPrice o] sheetRows =
      (ensureHeader sheetRows ++ [rowCellsNoPrice o dt],
       ["Filtered 1 flights saved to Google Sheets."], none) := by
    rw [hsave]
    simp [List.filterMap_cons, hbrow, Except.toOption, missingLog]
    rfl
  have hnl : notifyLoop smtp [mkFlightNoPrice o] = ([], [], some (PyErr.keyError "price")) :=
    rfl
  refine ⟨hsave2, ?_, ?_, ?_⟩ <;>
    simp only [fetch_and_notify, fetch_flight_data, Option.getD, hsave2, hnl] <;> rfl

/-- Witness for C10 at the concrete Rome offer without a price. -/
theorem missing_price_na_row_but_notifier_keyerror_witness :
    preferredOffer offerRome = true ∧
    save_to_google_sheets [mkFlightNoPrice offerRome] [] =
      ([headers, rowCellsNoPrice offerRome dtRome],
       ["Filtered 1 flights saved to Google Sheets."], none) ∧
    (fetch_and_notify smtpUp (HttpOutcome.success (some [mkFlightNoPrice offerRome])) []).error
      = some (PyErr.keyError "price") ∧
    (fetch_and_notify smtpUp
        (HttpOutcome.success (some [mkFlightNoPrice offerRome])) []).attempts = [] := by
  have h := missing_price_na_row_but_notifier_keyerror smtpUp [] offerRome dtRome
    (by decide) rfl
  refine ⟨by decide, ?_, h.2.1, h.2.2.2⟩
  rw [h.1]
  rfl

end Airfare
